import Mathlib

/-!
Verification development for the Capgo CLI bundle-release pipeline
(`src/bundle/upload.ts`).  The pipeline is embedded shallowly: the remote
backend, the file system and the interactive prompt are modelled as an
explicit environment of oracle answers, and one run of `uploadBundle`
produces a trace of observable events, a final outcome, and the final
state of the remote version row touched by the run.
-/

namespace Capgo

/-- Artifact bytes are modelled symbolically: a run only ever handles the
zip archive of the source directory and (optionally) its encryption under
a public key.  This keeps provenance (which bytes a checksum was computed
over, which bytes were uploaded) fully explicit. -/
inductive Bytes
  | zipOf (path : String)
  | encrypted (plain : Bytes) (keyData : String)
deriving DecidableEq, Repr

/-- crc32 from the checksum library (external collaborator).  Modelled as
an uninterpreted injective tag on symbolic bytes: the claims about
checksums are provenance claims (which bytes the checksum was taken
over), not claims about concrete CRC values. -/
def crc32 : Bytes → String
  | .zipOf p => "crc32:zip:" ++ p
  | .encrypted b k => "crc32:enc:" ++ k ++ ":" ++ crc32 b

/-- Modelled from the spec: the Envelope Encryptor (`encryptSource` from
`../api/crypto`, not included under `src/`): returns the ciphertext of the
archive under a fresh session key together with the wrapped session key
material derived from the recipient public key. -/
def encryptSource (b : Bytes) (keyData : String) : Bytes × String :=
  (Bytes.encrypted b keyData, "iv:" ++ keyData)

/-- Modelled from the spec: conventional public-key path (`baseKeyPub`
from `../utils`, not included under `src/`). -/
def baseKeyPub : String := ".capgo_key.pub"

/-- Modelled from the spec: the built-in default public key
(`defaulPublicKey` from `../utils`, not included under `src/`). -/
def defaulPublicKey : String := "CAPGO_DEFAULT_PUBLIC_KEY"

/-! ### Semantic versions -/

/-- Characters of a string before the first dot. -/
def majorChars : List Char → List Char
  | [] => []
  | c :: rest => if c = '.' then [] else c :: majorChars rest

/-- Decimal value of a digit list, `none` when a non-digit occurs. -/
def digitsVal (l : List Char) : Option Nat :=
  l.foldl
    (fun acc c =>
      match acc with
      | none => none
      | some n => if c.isDigit then some (n * 10 + (c.toNat - 48)) else none)
    (some 0)

/-- `semver.major` from the semver library (external collaborator): the
numeric major component of a version string (the digits before the first
dot). -/
def semverMajor (s : String) : Nat :=
  (digitsVal (majorChars s.data)).getD 0

/-- Splits a character list at every occurrence of `sep`. -/
def splitOnChar (sep : Char) : List Char → List (List Char)
  | [] => [[]]
  | c :: rest =>
    let r := splitOnChar sep rest
    if c = sep then [] :: r
    else
      match r with
      | [] => [[c]]
      | h :: t => (c :: h) :: t

/-- Splits a character list at the first occurrence of `sep`, if any. -/
def breakAtFirst (sep : Char) : List Char → List Char × Option (List Char)
  | [] => ([], none)
  | c :: rest =>
    if c = sep then ([], some rest)
    else
      let p := breakAtFirst sep rest
      (c :: p.1, p.2)

/-- A numeric identifier: nonempty digits without leading zero. -/
def isNumericId (l : List Char) : Bool :=
  !l.isEmpty && l.all Char.isDigit && (l.length == 1 || l.headD 'x' != '0')

/-- A character allowed in prerelease/build identifiers. -/
def isIdentCh (c : Char) : Bool :=
  c.isAlpha || c.isDigit || c = '-'

/-- A prerelease identifier: nonempty alphanumeric-or-hyphen, and when
fully numeric it has no leading zero. -/
def isPrereleaseId (l : List Char) : Bool :=
  !l.isEmpty && l.all isIdentCh &&
    (!(l.all Char.isDigit) || l.length == 1 || l.headD 'x' != '0')

/-- A build identifier: nonempty alphanumeric-or-hyphen. -/
def isBuildId (l : List Char) : Bool :=
  !l.isEmpty && l.all isIdentCh

/-- Modelled from the spec: `regexSemver` (imported from `../utils`, not
included under `src/`) — the semantic-version syntax test from
https://semver.org : `MAJOR.MINOR.PATCH` numeric identifiers, optional
dot-separated prerelease identifiers after the first hyphen, optional
dot-separated build identifiers after the first plus sign. -/
def regexSemver (s : String) : Bool :=
  let pb := breakAtFirst '+' s.data
  let pp := breakAtFirst '-' pb.1
  let coreOk :=
    match splitOnChar '.' pp.1 with
    | [ma, mi, pa] => isNumericId ma && isNumericId mi && isNumericId pa
    | _ => false
  let preOk :=
    match pp.2 with
    | none => true
    | some p => (splitOnChar '.' p).all isPrereleaseId
  let buildOk :=
    match pb.2 with
    | none => true
    | some b => (splitOnChar '.' b).all isBuildId
  coreOk && preOk && buildOk

/-- `external.startsWith('https://')` (upload.ts line 185), embedded as
a character-list comparison so it evaluates by kernel reduction. -/
def isHttpsUrl (s : String) : Bool :=
  "https://".data.isPrefixOf s.data

/-! ### Storage object key -/

/-- A character of the reserved-safe S3 object-key set
`[A-Za-z0-9-_.!*'()]` (upload.ts line 112). -/
def allowedChar (c : Char) : Bool :=
  c.isAlpha || c.isDigit || c = '-' || c = '_' || c = '.' || c = '!' ||
    c = '*' || c = Char.ofNat 39 || c = '(' || c = ')'

/-- One step of the object-key transform: an allowed character is kept,
any other character is replaced by the two-character placeholder `__`. -/
def safeChar (c : Char) : List Char :=
  if allowedChar c then [c] else ['_', '_']

/-- `bundle.replace(/[^a-zA-Z0-9-_.!*'()]/g, '__')` (upload.ts line 112). -/
def safeName (bundle : String) : String :=
  String.mk (bundle.data.map safeChar).flatten

/-- The storage object key: the sanitized bundle name with `.zip`
appended (upload.ts line 113). -/
def fileName (bundle : String) : String :=
  safeName bundle ++ ".zip"

/-! ### Native-code compatibility check -/

/-- A local native source file together with its hash
(`NativeFile` from `../utils`). -/
structure NativeFile where
  path : String
  hash : String
deriving DecidableEq, Repr

/-- Result of the channel fetch performed by `checkNativeCode`
(upload.ts lines 312-322): either an error / missing channel, or the
bound version's name and its recorded native hashes. -/
inductive ChannelFetch
  | fetchErr
  | ok (versionName : String) (native : Option (List String))
deriving DecidableEq, Repr

/-- Result of `checkNativeCode`; `violations` records, in order, the
paths logged by `p.log.error` for local files whose hash is absent
remotely (upload.ts lines 353-359). -/
structure NativeCheckResult where
  nativeFilesNotChanged : Bool
  hashes : List String
  violations : List String
deriving DecidableEq, Repr

/-- The scan loop of `checkNativeCode` (upload.ts lines 352-359):
`returnVal` starts `true`; every local file whose hash is not found in
the remote set is reported by path and flips `returnVal` to `false`. -/
def nativeScan (remote : List String) (loc : List NativeFile) : Bool × List String :=
  loc.foldl
    (fun acc nf =>
      if remote.contains nf.hash then acc
      else (false, acc.2 ++ [nf.path]))
    (true, [])

/-- `checkNativeCode` (upload.ts lines 304-367), with the local hashing
and the channel fetch supplied as inputs. -/
def checkNativeCode (bundle : String) (loc : List NativeFile) (fetch : ChannelFetch) :
    NativeCheckResult :=
  let hashes := loc.map NativeFile.hash
  match fetch with
  | .fetchErr => ⟨true, hashes, []⟩
  | .ok vname native =>
    if semverMajor bundle > semverMajor vname then ⟨true, hashes, []⟩
    else
      match native with
      | none => ⟨true, hashes, []⟩
      | some remote =>
        let scan := nativeScan remote loc
        ⟨scan.1, hashes, scan.2⟩

/-! ### Pipeline orchestrator -/

/-- The `--key` CLI option: `boolean | string` in the source, default
`false`; a string value is a path to a public-key file. -/
inductive KeyArg
  | kFalse
  | kTrue
  | kPath (p : String)
deriving DecidableEq, Repr

/-- JavaScript truthiness of the `key` option (`false`, `true`, or a
string which is falsy exactly when empty). -/
def keyTruthy : KeyArg → Bool
  | .kFalse => false
  | .kTrue => true
  | .kPath p => !p.isEmpty

/-- `typeof key === 'string' ? key : baseKeyPub` (upload.ts line 131). -/
def publicKeyPath : KeyArg → String
  | .kPath p => p
  | _ => baseKeyPub

/-- The `Options` interface of the upload command (upload.ts lines
26-33), with the `apikey` field inherited from `OptionsBase`. -/
structure Options where
  apikey? : Option String
  bundle? : Option String
  path? : Option String
  channel? : Option String
  displayIvSession : Bool
  external? : Option String
  key : KeyArg

/-- Oracle answers for everything outside the pipeline itself: project
configuration, file system, CI detection, the interactive prompt, and
every remote response consumed by one run. -/
structure Env where
  configAppId? : Option String
  configPkgVersion? : Option String
  configWebDir? : Option String
  savedKey? : Option String
  uuid : String
  userId : String
  fsExists : String → Bool
  fileContents : String → String
  isCI : Bool
  confirmDefaultKey : Bool
  verifyOk : Bool
  planOk : Bool
  appPermOk : Bool
  versionExists : Bool
  versionExistsErr : Bool
  trialWarn : Bool
  existApp : Bool
  existAppErr : Bool
  nativeLocal : List NativeFile
  channelFetch : ChannelFetch
  upsertErr1 : Bool
  uploadUrlOk : Bool
  axiosOk : Bool
  upsertErr2 : Bool
  versionId? : Option Nat
  bindErr : Bool
  bindPublic : Bool

/-- The version row passed to `updateOrCreateVersion`
(upload.ts lines 200-210). -/
structure VersionData where
  bucket_id : Option String
  user_id : String
  name : String
  app_id : String
  session_key : Option String
  external_url : Option String
  storage_provider : String
  checksum : String
  native_files_sha256 : List String
deriving DecidableEq, Repr

/-- Observable events of one run.  `rpcCall` covers the remote calls of
the release pipeline (spec §5: existence checks, version creation,
artifact upload, channel binding, plus the auth/plan/permission lookups);
`checkLatest` is the CLI self-update check (`../api/update`, outside the
pipeline's remote-call contract); the remaining events are local
milestones. -/
inductive Ev
  | checkLatest
  | rpcCall (name : String)
  | nativeCheck (safe : Bool)
  | buildArtifact
  | computeChecksum (b : Bytes)
  | promptConfirm
  | readFile (path : String)
  | encryptEv
  | upsertVersion (vd : VersionData)
  | uploadPut (b : Bytes) (crcHeader : String)
deriving DecidableEq, Repr

/-- Events that are network calls to the backend store. -/
def Ev.isBackendCall : Ev → Bool
  | .rpcCall _ => true
  | .upsertVersion _ => true
  | .uploadPut _ _ => true
  | _ => false

/-- Final outcome of a run: normal completion, or abort
(`program.error` / a thrown exception). -/
inductive Outcome
  | ok
  | err (msg : String)
deriving DecidableEq, Repr

/-- `true` iff the run aborted. -/
def Outcome.isErr : Outcome → Bool
  | .ok => false
  | .err _ => true

/-- One run of the pipeline: its event trace, its outcome, and the final
state of the remote version row for this run's `(app_id, name)` identity
(`none` when no row was ever created). -/
structure RunResult where
  trace : List Ev
  outcome : Outcome
  store : Option VersionData
deriving DecidableEq, Repr

/-- `bundle = bundle || config?.app?.package?.version || `0.0.1-beta.${uuid}``
(upload.ts line 49). -/
def resolvedBundle (opts : Options) (env : Env) : String :=
  opts.bundle?.getD (env.configPkgVersion?.getD ("0.0.1-beta." ++ env.uuid))

/-- `path = path || config?.app?.webDir` (upload.ts line 55), with the
empty string standing for a still-missing path. -/
def resolvedPath (opts : Options) (env : Env) : String :=
  opts.path?.getD (env.configWebDir?.getD "")

/-- `apikey = options.apikey || findSavedKey()` (upload.ts line 40). -/
def resolvedApikey (opts : Options) (env : Env) : Option String :=
  match opts.apikey? with
  | some k => some k
  | none => env.savedKey?

/-- `appid = appid || config?.app?.appId` (upload.ts line 46), with the
empty string standing for a missing app id. -/
def resolvedAppid (appid0 : String) (env : Env) : String :=
  if appid0 = "" then env.configAppId?.getD "" else appid0

/-- `channel = channel || 'dev'` (upload.ts line 43). -/
def resolvedChannel (opts : Options) : String :=
  opts.channel?.getD "dev"

/-- Channel-binding phase (upload.ts lines 243-266): resolve the version
id, then create or re-point the channel row.  The version row persisted
earlier is never touched again here. -/
def bindPhase (env : Env) (t : List Ev) (stored : VersionData) : RunResult :=
  let t1 := t ++ [Ev.rpcCall "get_app_versions"]
  match env.versionId? with
  | some _ =>
    let t2 := t1 ++ [Ev.rpcCall "updateOrCreateChannel"]
    if env.bindErr then ⟨t2, .err "cannot set channel", some stored⟩
    else ⟨t2, .ok, some stored⟩
  | none => ⟨t1, .err "cannot set bundle with upload key", some stored⟩

/-- Registration phase (upload.ts lines 211-242): first
`updateOrCreateVersion` call, then — for a local artifact — the upload
URL request, the artifact transfer, and the second
`updateOrCreateVersion` call upgrading `storage_provider` to `r2`. -/
def registerPhase (env : Env) (t : List Ev) (vd : VersionData)
    (upload? : Option (Bytes × String)) : RunResult :=
  let t1 := t ++ [Ev.upsertVersion vd]
  if env.upsertErr1 then ⟨t1, .err "cannot add bundle", none⟩
  else
    match upload? with
    | some bc =>
      let t2 := t1 ++ [Ev.rpcCall "uploadUrl"]
      if env.uploadUrlOk then
        let t3 := t2 ++ [Ev.uploadPut bc.1 bc.2]
        if env.axiosOk then
          let vd2 := { vd with storage_provider := "r2" }
          let t4 := t3 ++ [Ev.upsertVersion vd2]
          if env.upsertErr2 then ⟨t4, .err "cannot update bundle", some vd⟩
          else bindPhase env t4 vd2
        else ⟨t3, .err "upload transfer failed", some vd⟩
      else ⟨t2, .err "cannot get upload url", some vd⟩
    | none => bindPhase env t1 vd

/-- `uploadBundle` (upload.ts lines 35-282).  Guards appear in source
order: semver syntax, API key, missing arguments, path existence,
`verifyUser`, `checkPlanValid`, app permission, the two
`exist_app_versions` gates around `is_trial`/`exist_app`, the
native-code gate, then the artifact phase (archive, checksum, optional
encryption — including the crash of `readFileSync` on a missing key
file), and finally registration, upload and channel binding. -/
def uploadBundle (appid0 : String) (opts : Options) (env : Env) : RunResult :=
  let bundle := resolvedBundle opts env
  let appid := resolvedAppid appid0 env
  let path := resolvedPath opts env
  let t0 : List Ev := [Ev.checkLatest]
  if regexSemver bundle then
    if (resolvedApikey opts env).isSome then
      if appid != "" && bundle != "" && path != "" then
        if env.fsExists path then
          let t1 := t0 ++ [Ev.rpcCall "verifyUser"]
          if env.verifyOk then
            let t2 := t1 ++ [Ev.rpcCall "checkPlanValid"]
            if env.planOk then
              let t3 := t2 ++ [Ev.rpcCall "appPermission"]
              if env.appPermOk then
                let t4 := t3 ++ [Ev.rpcCall "exist_app_versions"]
                if env.versionExists || env.versionExistsErr then
                  ⟨t4, .err "already exists", none⟩
                else
                  let t5 := t4 ++ [Ev.rpcCall "is_trial"]
                  let t6 := t5 ++ [Ev.rpcCall "exist_app"]
                  if env.existApp && !env.existAppErr then
                    let t7 := t6 ++ [Ev.rpcCall "exist_app_versions"]
                    if env.versionExists || env.versionExistsErr then
                      ⟨t7, .err "version already exists", none⟩
                    else
                      let fname := fileName bundle
                      let ncr := checkNativeCode bundle env.nativeLocal env.channelFetch
                      let t8 := t7 ++ [Ev.rpcCall "channels.select",
                        Ev.nativeCheck ncr.nativeFilesNotChanged]
                      if ncr.nativeFilesNotChanged then
                        match opts.external? with
                        | none =>
                          let zipped0 := Bytes.zipOf path
                          let cks := crc32 zipped0
                          let t9 := t8 ++ [Ev.buildArtifact, Ev.computeChecksum zipped0]
                          if keyTruthy opts.key || env.fsExists baseKeyPub then
                            let publicKey := publicKeyPath opts.key
                            if env.fsExists publicKey then
                              let keyData := env.fileContents publicKey
                              let enc := encryptSource zipped0 keyData
                              let t10 := t9 ++ [Ev.readFile publicKey, Ev.encryptEv]
                              let vd : VersionData :=
                                ⟨some fname, env.userId, bundle, appid, some enc.2,
                                  none, "r2-direct", cks, ncr.hashes⟩
                              registerPhase env t10 vd (some (enc.1, cks))
                            else
                              if env.isCI then ⟨t9, .err "cannot find public key", none⟩
                              else
                                let t10 := t9 ++ [Ev.promptConfirm]
                                if env.confirmDefaultKey then
                                  ⟨t10 ++ [Ev.readFile publicKey], .err "ENOENT", none⟩
                                else ⟨t10, .err "missing public key", none⟩
                          else
                            let vd : VersionData :=
                              ⟨some fname, env.userId, bundle, appid, none,
                                none, "r2-direct", cks, ncr.hashes⟩
                            registerPhase env t9 vd (some (zipped0, cks))
                        | some ext =>
                          if isHttpsUrl ext then
                            let vd : VersionData :=
                              ⟨none, env.userId, bundle, appid, none,
                                some ext, "external", "", ncr.hashes⟩
                            registerPhase env t8 vd none
                          else ⟨t8, .err "external link not https", none⟩
                      else ⟨t8, .err "native files changed", none⟩
                  else ⟨t6, .err "cannot find app", none⟩
              else ⟨t3, .err "no app permission", none⟩
            else ⟨t2, .err "invalid plan", none⟩
          else ⟨t1, .err "invalid apikey", none⟩
        else ⟨t0, .err "path does not exist", none⟩
      else ⟨t0, .err "missing argument", none⟩
    else ⟨t0, .err "missing api key", none⟩
  else ⟨t0, .err "invalid semver", none⟩

/-! ### Helper lemmas -/

theorem nativeScan_go (remote : List String) (loc : List NativeFile) (b : Bool)
    (vs : List String) :
    loc.foldl
      (fun acc nf =>
        if remote.contains nf.hash then acc
        else (false, acc.2 ++ [nf.path]))
      (b, vs) =
    (b && loc.all (fun nf => remote.contains nf.hash),
      vs ++ (loc.filter (fun nf => !(remote.contains nf.hash))).map NativeFile.path) := by
  induction loc generalizing b vs with
  | nil => simp
  | cons nf rest ih =>
    by_cases h : remote.contains nf.hash = true
    · have hm : nf.hash ∈ remote := by simpa using h
      rw [List.foldl_cons, if_pos h, ih, List.all_cons, h, List.filter_cons]
      simp [hm]
    · have h' : remote.contains nf.hash = false := by simpa using h
      have hm : nf.hash ∉ remote := by simpa using h
      rw [List.foldl_cons, if_neg h, ih, List.all_cons, h', List.filter_cons]
      simp [hm, h']

theorem nativeScan_eq (remote : List String) (loc : List NativeFile) :
    nativeScan remote loc =
      (loc.all (fun nf => remote.contains nf.hash),
        (loc.filter (fun nf => !(remote.contains nf.hash))).map NativeFile.path) := by
  simpa [nativeScan] using nativeScan_go remote loc true []

/-! ### Claim theorems: native-code check -/

/-- C5: when the channel fetch yields a bound version with recorded
native hashes and the target version's major component does not exceed
the bound version's, the check is safe iff every local native-file hash
is present in the remote recorded set, and the reported violations are
exactly the paths of the local files whose hash is absent remotely, in
order (so remote-only hashes never cause failure). -/
theorem c5_native_safe_iff (bundle vname : String) (loc : List NativeFile)
    (remote : List String)
    (h : semverMajor bundle ≤ semverMajor vname) :
    ((checkNativeCode bundle loc (ChannelFetch.ok vname (some remote))).nativeFilesNotChanged
        = true ↔ ∀ nf ∈ loc, nf.hash ∈ remote) ∧
    (checkNativeCode bundle loc (ChannelFetch.ok vname (some remote))).violations
      = (loc.filter (fun nf => !(remote.contains nf.hash))).map NativeFile.path := by
  have hng : ¬ (semverMajor bundle > semverMajor vname) := by omega
  constructor
  · simp [checkNativeCode, hng, nativeScan_eq, List.all_eq_true, List.elem_iff]
  · simp [checkNativeCode, hng, nativeScan_eq]

/-- Witness for C5 at the spec's P4 instance: channel bound to `1.4.0`
with recorded hashes `{A,B}`, releasing `1.5.0` with local hashes
`{A,C}` is unsafe, naming exactly the file carrying `C`. -/
theorem c5_native_safe_iff_witness :
    semverMajor "1.5.0" ≤ semverMajor "1.4.0" ∧
    (((checkNativeCode "1.5.0" [⟨"pathA", "A"⟩, ⟨"pathC", "C"⟩]
        (ChannelFetch.ok "1.4.0" (some ["A", "B"]))).nativeFilesNotChanged = true ↔
      ∀ nf ∈ [(⟨"pathA", "A"⟩ : NativeFile), ⟨"pathC", "C"⟩], nf.hash ∈ ["A", "B"]) ∧
     (checkNativeCode "1.5.0" [⟨"pathA", "A"⟩, ⟨"pathC", "C"⟩]
        (ChannelFetch.ok "1.4.0" (some ["A", "B"]))).violations
       = ([(⟨"pathA", "A"⟩ : NativeFile), ⟨"pathC", "C"⟩].filter
            (fun nf => !((["A", "B"] : List String).contains nf.hash))).map NativeFile.path) :=
  ⟨by decide, c5_native_safe_iff "1.5.0" "1.4.0" _ _ (by decide)⟩

/-- C6: when the target version's major component exceeds the bound
version's major component, the native-code check is safe unconditionally
(whatever the recorded remote hashes are, present or absent) and still
returns the freshly computed local hashes for recording. -/
theorem c6_major_bump_bypass (bundle vname : String) (loc : List NativeFile)
    (native : Option (List String))
    (h : semverMajor vname < semverMajor bundle) :
    checkNativeCode bundle loc (ChannelFetch.ok vname native) =
      ⟨true, loc.map NativeFile.hash, []⟩ := by
  simp [checkNativeCode, h]

/-- Witness for C6 at the spec's P3 instance: channel bound to `1.4.0`
with recorded hashes `{A}`, releasing `2.0.0` with the disjoint local
hash set `{B}` is safe and returns `[B]` for recording. -/
theorem c6_major_bump_bypass_witness :
    semverMajor "1.4.0" < semverMajor "2.0.0" ∧
    checkNativeCode "2.0.0" [⟨"android/f.kt", "B"⟩] (ChannelFetch.ok "1.4.0" (some ["A"]))
      = ⟨true, ["B"], []⟩ :=
  ⟨by decide, c6_major_bump_bypass "2.0.0" "1.4.0" _ _ (by decide)⟩

/-! ### Claim theorems: object-key transform -/

theorem safeChar_all (c : Char) : (safeChar c).all allowedChar = true := by
  unfold safeChar
  by_cases h : allowedChar c = true
  · simp [h]
  · simp only [Bool.not_eq_true] at h
    rw [if_neg (by simp [h])]
    decide

/-- C7: for every bundle name, the object key obtained by replacing each
character outside `[A-Za-z0-9-_.!*'()]` with the two-character
placeholder and appending `.zip` contains no character outside the
reserved-safe set; the transform is a pure function of the bundle name. -/
theorem c7_object_key_safety (bundle : String) :
    (fileName bundle).data.all allowedChar = true := by
  have hdata : (fileName bundle).data
      = (bundle.data.map safeChar).flatten ++ ".zip".data := rfl
  rw [hdata, List.all_append]
  have h1 : ((bundle.data.map safeChar).flatten.all allowedChar) = true := by
    induction bundle.data with
    | nil => rfl
    | cons c rest ih =>
      simp only [List.map_cons, List.flatten_cons, List.all_append, ih, Bool.and_true]
      exact safeChar_all c
  rw [h1]
  decide

/-! ### Claim theorems: orchestrator gate ordering -/

/-- C4: for any resolved bundle name failing the semantic-version test,
the run aborts with the argument error and its trace contains no backend
network call (spec §5: existence checks, version creation, artifact
upload, channel binding, and the auth/plan/permission lookups). -/
theorem c4_semver_gate (appid0 : String) (opts : Options) (env : Env)
    (h : regexSemver (resolvedBundle opts env) = false) :
    (uploadBundle appid0 opts env).outcome = Outcome.err "invalid semver" ∧
    ∀ e ∈ (uploadBundle appid0 opts env).trace, e.isBackendCall = false := by
  unfold uploadBundle
  simp [h, Ev.isBackendCall]

/-- Concrete options with an invalid bundle name. -/
def c4Opts : Options :=
  ⟨some "k", some "not-semver", some "dist", some "production", false, none, KeyArg.kFalse⟩

/-- Happy-path options shared by concrete runs below. -/
def happyOpts : Options :=
  ⟨some "k", some "1.0.0", some "dist", some "production", false, none, KeyArg.kFalse⟩

/-- Environment where every oracle cooperates: gates pass, the channel
does not exist yet, the upload succeeds, binding succeeds. -/
def happyEnv : Env where
  configAppId? := none
  configPkgVersion? := none
  configWebDir? := none
  savedKey? := none
  uuid := "f00"
  userId := "u1"
  fsExists := fun p => p == "dist"
  fileContents := fun _ => "PUB"
  isCI := false
  confirmDefaultKey := false
  verifyOk := true
  planOk := true
  appPermOk := true
  versionExists := false
  versionExistsErr := false
  trialWarn := false
  existApp := true
  existAppErr := false
  nativeLocal := []
  channelFetch := ChannelFetch.fetchErr
  upsertErr1 := false
  uploadUrlOk := true
  axiosOk := true
  upsertErr2 := false
  versionId? := some 1
  bindErr := false
  bindPublic := false

/-- Witness for C4: the concrete bundle name `not-semver` aborts with
the argument error and no backend call is ever made. -/
theorem c4_semver_gate_witness :
    regexSemver (resolvedBundle c4Opts happyEnv) = false ∧
    ((uploadBundle "com.demo.app" c4Opts happyEnv).outcome = Outcome.err "invalid semver" ∧
     ∀ e ∈ (uploadBundle "com.demo.app" c4Opts happyEnv).trace, e.isBackendCall = false) :=
  ⟨by decide, c4_semver_gate "com.demo.app" c4Opts happyEnv (by decide)⟩

/-- C8: when the pre-upload existence check reports that a version with
this `(app_id, name)` identity already exists, the run aborts with the
conflict error, no version row is created or updated, no artifact bytes
are transferred, and the remote row state for this run stays empty. -/
theorem c8_conflict_gate (appid0 : String) (opts : Options) (env : Env)
    (h1 : regexSemver (resolvedBundle opts env) = true)
    (h2 : (resolvedApikey opts env).isSome = true)
    (h3 : (resolvedAppid appid0 env != "" && resolvedBundle opts env != ""
            && resolvedPath opts env != "") = true)
    (h4 : env.fsExists (resolvedPath opts env) = true)
    (h5 : env.verifyOk = true) (h6 : env.planOk = true) (h7 : env.appPermOk = true)
    (h8 : env.versionExists = true) :
    (uploadBundle appid0 opts env).outcome = Outcome.err "already exists" ∧
    (∀ vd, Ev.upsertVersion vd ∉ (uploadBundle appid0 opts env).trace) ∧
    (∀ b c, Ev.uploadPut b c ∉ (uploadBundle appid0 opts env).trace) ∧
    (uploadBundle appid0 opts env).store = none := by
  unfold uploadBundle
  simp [h1, h2, h3, h4, h5, h6, h7, h8]

/-- Environment identical to the happy one except that the version
already exists remotely. -/
def conflictEnv : Env := { happyEnv with versionExists := true }

/-- Witness for C8: the concrete duplicate upload aborts with the
conflict error, transfers nothing and writes no row. -/
theorem c8_conflict_gate_witness :
    (regexSemver (resolvedBundle happyOpts conflictEnv) = true ∧
     (resolvedApikey happyOpts conflictEnv).isSome = true ∧
     (resolvedAppid "com.demo.app" conflictEnv != ""
       && resolvedBundle happyOpts conflictEnv != ""
       && resolvedPath happyOpts conflictEnv != "") = true ∧
     conflictEnv.fsExists (resolvedPath happyOpts conflictEnv) = true ∧
     conflictEnv.verifyOk = true ∧ conflictEnv.planOk = true ∧
     conflictEnv.appPermOk = true ∧ conflictEnv.versionExists = true) ∧
    ((uploadBundle "com.demo.app" happyOpts conflictEnv).outcome
        = Outcome.err "already exists" ∧
     (∀ vd, Ev.upsertVersion vd ∉ (uploadBundle "com.demo.app" happyOpts conflictEnv).trace) ∧
     (∀ b c, Ev.uploadPut b c ∉ (uploadBundle "com.demo.app" happyOpts conflictEnv).trace) ∧
     (uploadBundle "com.demo.app" happyOpts conflictEnv).store = none) :=
  ⟨by decide,
   c8_conflict_gate "com.demo.app" happyOpts conflictEnv (by decide) (by decide) (by decide)
     (by decide) (by decide) (by decide) (by decide) (by decide)⟩

/-! ### Reaching the artifact phase -/

/-- All the gates preceding the artifact phase pass: valid semver,
credentials and arguments present, path exists, auth/plan/permission
checks succeed, no version conflict, the app exists, and the native-code
check reports safe. -/
abbrev GatesPass (appid0 : String) (opts : Options) (env : Env) : Prop :=
  regexSemver (resolvedBundle opts env) = true ∧
  (resolvedApikey opts env).isSome = true ∧
  (resolvedAppid appid0 env != "" && resolvedBundle opts env != ""
    && resolvedPath opts env != "") = true ∧
  env.fsExists (resolvedPath opts env) = true ∧
  env.verifyOk = true ∧ env.planOk = true ∧ env.appPermOk = true ∧
  env.versionExists = false ∧ env.versionExistsErr = false ∧
  (env.existApp && !env.existAppErr) = true ∧
  (checkNativeCode (resolvedBundle opts env) env.nativeLocal
      env.channelFetch).nativeFilesNotChanged = true

theorem bindPhase_store (env : Env) (t : List Ev) (vd : VersionData) :
    (bindPhase env t vd).store = some vd := by
  unfold bindPhase
  match env.versionId? with
  | some _ =>
    by_cases h : env.bindErr = true <;> simp [h]
  | none => rfl

theorem bindPhase_trace (env : Env) (t : List Ev) (vd : VersionData) :
    ∃ u, (bindPhase env t vd).trace = t ++ u ∧
      ∀ e ∈ u, ∃ n, e = Ev.rpcCall n := by
  unfold bindPhase
  match env.versionId? with
  | some _ =>
    by_cases h : env.bindErr = true
    · exact ⟨[Ev.rpcCall "get_app_versions", Ev.rpcCall "updateOrCreateChannel"],
        by simp [h], by simp⟩
    · exact ⟨[Ev.rpcCall "get_app_versions", Ev.rpcCall "updateOrCreateChannel"],
        by simp [h], by simp⟩
  | none => exact ⟨[Ev.rpcCall "get_app_versions"], by simp, by simp⟩

theorem bindPhase_not_mem (env : Env) (t : List Ev) (vd : VersionData) (e : Ev)
    (ht : e ∉ t) (hr : ∀ n, e ≠ Ev.rpcCall n) : e ∉ (bindPhase env t vd).trace := by
  obtain ⟨u, hu, hrpc⟩ := bindPhase_trace env t vd
  rw [hu]
  intro hmem
  rcases List.mem_append.mp hmem with h | h
  · exact ht h
  · obtain ⟨n, hn⟩ := hrpc e h
    exact hr n hn

theorem bindPhase_mem_of (env : Env) (t : List Ev) (vd : VersionData) (e : Ev)
    (h : e ∈ t) : e ∈ (bindPhase env t vd).trace := by
  obtain ⟨u, hu, _⟩ := bindPhase_trace env t vd
  rw [hu]
  exact List.mem_append.mpr (Or.inl h)

/-! ### Claim theorems: failure handling around upload -/

/-- C9: when every gate passes, the pre-upload version creation
succeeds, and then the upload-URL request fails or the artifact transfer
fails, the run ends in error while the version row created before the
upload still exists with `storage_provider` `r2-direct` — it is not
rolled back or removed. -/
theorem c9_upload_failure_leaves_pending_row (appid0 : String) (opts : Options) (env : Env)
    (hg : GatesPass appid0 opts env)
    (hext : opts.external? = none)
    (henc : (keyTruthy opts.key || env.fsExists baseKeyPub) = true →
      env.fsExists (publicKeyPath opts.key) = true)
    (hok : env.upsertErr1 = false)
    (hfail : env.uploadUrlOk = false ∨ (env.uploadUrlOk = true ∧ env.axiosOk = false)) :
    (uploadBundle appid0 opts env).outcome.isErr = true ∧
    ∃ vd, (uploadBundle appid0 opts env).store = some vd ∧
      vd.storage_provider = "r2-direct" ∧
      vd.name = resolvedBundle opts env ∧
      vd.app_id = resolvedAppid appid0 env ∧
      Ev.upsertVersion vd ∈ (uploadBundle appid0 opts env).trace := by
  obtain ⟨h1, h2, h3, h4, h5, h6, h7, h8, h9, h10, h11⟩ := hg
  unfold uploadBundle
  by_cases hk : (keyTruthy opts.key || env.fsExists baseKeyPub) = true
  · have hpk := henc hk
    rcases hfail with hu | ⟨hu, ha⟩
    · simp [h1, h2, h3, h4, h5, h6, h7, h8, h9, h10, h11, hext, hk, hpk,
        registerPhase, hok, hu, Outcome.isErr]
    · simp [h1, h2, h3, h4, h5, h6, h7, h8, h9, h10, h11, hext, hk, hpk,
        registerPhase, hok, hu, ha, Outcome.isErr]
  · rcases hfail with hu | ⟨hu, ha⟩
    · simp [h1, h2, h3, h4, h5, h6, h7, h8, h9, h10, h11, hext, hk,
        registerPhase, hok, hu, Outcome.isErr]
    · simp [h1, h2, h3, h4, h5, h6, h7, h8, h9, h10, h11, hext, hk,
        registerPhase, hok, hu, ha, Outcome.isErr]

/-- Environment where the upload-URL request fails after a successful
pre-upload version creation. -/
def urlFailEnv : Env := { happyEnv with uploadUrlOk := false }

/-- Witness for C9: a concrete run whose upload-URL request fails ends
in error with the `r2-direct` row still persisted. -/
theorem c9_upload_failure_leaves_pending_row_witness :
    (GatesPass "com.demo.app" happyOpts urlFailEnv ∧
     happyOpts.external? = none ∧
     ((keyTruthy happyOpts.key || urlFailEnv.fsExists baseKeyPub) = true →
       urlFailEnv.fsExists (publicKeyPath happyOpts.key) = true) ∧
     urlFailEnv.upsertErr1 = false ∧
     (urlFailEnv.uploadUrlOk = false ∨
       (urlFailEnv.uploadUrlOk = true ∧ urlFailEnv.axiosOk = false))) ∧
    ((uploadBundle "com.demo.app" happyOpts urlFailEnv).outcome.isErr = true ∧
     ∃ vd, (uploadBundle "com.demo.app" happyOpts urlFailEnv).store = some vd ∧
       vd.storage_provider = "r2-direct" ∧
       vd.name = resolvedBundle happyOpts urlFailEnv ∧
       vd.app_id = resolvedAppid "com.demo.app" urlFailEnv ∧
       Ev.upsertVersion vd ∈ (uploadBundle "com.demo.app" happyOpts urlFailEnv).trace) :=
  ⟨by decide,
   c9_upload_failure_leaves_pending_row "com.demo.app" happyOpts urlFailEnv
     (by decide) (by decide) (by decide) (by decide) (by decide)⟩

/-- C10: in external-URL mode with a secure-transport URL, the
registered version row has `checksum` equal to the empty string,
`bucket_id` unset, `storage_provider` `external` and `external_url` set;
no archive is built, no checksum is computed over any bytes and no
artifact transfer happens in the run. -/
theorem c10_external_mode (appid0 : String) (opts : Options) (env : Env) (ext : String)
    (hg : GatesPass appid0 opts env)
    (hext : opts.external? = some ext)
    (hhttps : isHttpsUrl ext = true)
    (hok : env.upsertErr1 = false) :
    (∃ vd, (uploadBundle appid0 opts env).store = some vd ∧
       vd.checksum = "" ∧ vd.bucket_id = none ∧
       vd.storage_provider = "external" ∧ vd.external_url = some ext) ∧
    Ev.buildArtifact ∉ (uploadBundle appid0 opts env).trace ∧
    (∀ b, Ev.computeChecksum b ∉ (uploadBundle appid0 opts env).trace) ∧
    (∀ b c, Ev.uploadPut b c ∉ (uploadBundle appid0 opts env).trace) := by
  obtain ⟨h1, h2, h3, h4, h5, h6, h7, h8, h9, h10, h11⟩ := hg
  unfold uploadBundle
  simp only [h1, h2, h3, h4, h5, h6, h7, h8, h9, h10, h11, hext, hhttps, registerPhase, hok,
    Bool.or_self, Bool.or_false, Bool.false_or, if_true, if_false, Bool.false_eq_true,
    ite_true, ite_false]
  refine ⟨⟨_, bindPhase_store env _ _, rfl, rfl, rfl, rfl⟩, ?_, ?_, ?_⟩
  · exact bindPhase_not_mem _ _ _ _ (by simp) (fun n h => by cases h)
  · intro b
    exact bindPhase_not_mem _ _ _ _ (by simp) (fun n h => by cases h)
  · intro b c
    exact bindPhase_not_mem _ _ _ _ (by simp) (fun n h => by cases h)

/-- Options registering an externally hosted artifact. -/
def externalOpts : Options :=
  ⟨some "k", some "1.0.0", some "dist", some "production", false,
    some "https://cdn.example.com/b.zip", KeyArg.kFalse⟩

/-- Witness for C10: a concrete external-URL run registers the row with
empty checksum and `external` provider, building and uploading nothing. -/
theorem c10_external_mode_witness :
    (GatesPass "com.demo.app" externalOpts happyEnv ∧
     externalOpts.external? = some "https://cdn.example.com/b.zip" ∧
     isHttpsUrl "https://cdn.example.com/b.zip" = true ∧
     happyEnv.upsertErr1 = false) ∧
    ((∃ vd, (uploadBundle "com.demo.app" externalOpts happyEnv).store = some vd ∧
        vd.checksum = "" ∧ vd.bucket_id = none ∧
        vd.storage_provider = "external" ∧
        vd.external_url = some "https://cdn.example.com/b.zip") ∧
     Ev.buildArtifact ∉ (uploadBundle "com.demo.app" externalOpts happyEnv).trace ∧
     (∀ b, Ev.computeChecksum b ∉ (uploadBundle "com.demo.app" externalOpts happyEnv).trace) ∧
     (∀ b c, Ev.uploadPut b c ∉ (uploadBundle "com.demo.app" externalOpts happyEnv).trace)) :=
  ⟨by decide,
   c10_external_mode "com.demo.app" externalOpts happyEnv "https://cdn.example.com/b.zip"
     (by decide) (by decide) (by decide) (by decide)⟩

/-! ### Claim theorems: checksum provenance -/

/-- Options requesting encryption with an explicit public-key file. -/
def encryptOpts : Options :=
  ⟨some "k", some "1.0.0", some "dist", some "production", false, none,
    KeyArg.kPath "pub.pem"⟩

/-- Environment where both the web directory and the public-key file
exist, and everything else cooperates. -/
def encryptEnv : Env :=
  { happyEnv with fsExists := fun p => p == "dist" || p == "pub.pem" }

/-- The version row persisted by the concrete encrypted run. -/
def encryptStoredVd : VersionData :=
  ⟨some "1.0.0.zip", "u1", "1.0.0", "com.demo.app", some "iv:PUB", none, "r2",
    "crc32:zip:dist", []⟩

/-- Counterexample to C1: in a concrete run that applies encryption, the
recorded checksum is the crc32 of the pre-encryption zip archive, the
bytes actually uploaded are the ciphertext (carrying that same checksum
as their integrity header), and the recorded checksum differs from the
crc32 of the uploaded ciphertext — so the checksum is not computed over
the final stored bytes. -/
theorem c1_checksum_counterexample :
    (uploadBundle "com.demo.app" encryptOpts encryptEnv).store = some encryptStoredVd ∧
    encryptStoredVd.checksum = crc32 (Bytes.zipOf "dist") ∧
    Ev.uploadPut (Bytes.encrypted (Bytes.zipOf "dist") "PUB") encryptStoredVd.checksum
      ∈ (uploadBundle "com.demo.app" encryptOpts encryptEnv).trace ∧
    encryptStoredVd.checksum ≠ crc32 (Bytes.encrypted (Bytes.zipOf "dist") "PUB") := by
  decide

/-- C1 (amended): the checksum recorded in the version record is always
computed over the pre-encryption archive bytes; when encryption is
applied, the uploaded bytes are the ciphertext while the recorded
checksum remains that of the plaintext archive. -/
theorem c1_checksum_over_plaintext (appid0 : String) (opts : Options) (env : Env)
    (hg : GatesPass appid0 opts env)
    (hext : opts.external? = none)
    (henc : (keyTruthy opts.key || env.fsExists baseKeyPub) = true)
    (hpk : env.fsExists (publicKeyPath opts.key) = true)
    (hu1 : env.upsertErr1 = false) (hurl : env.uploadUrlOk = true)
    (hax : env.axiosOk = true) :
    (∃ vd, (uploadBundle appid0 opts env).store = some vd ∧
       vd.checksum = crc32 (Bytes.zipOf (resolvedPath opts env))) ∧
    Ev.uploadPut
        (Bytes.encrypted (Bytes.zipOf (resolvedPath opts env))
          (env.fileContents (publicKeyPath opts.key)))
        (crc32 (Bytes.zipOf (resolvedPath opts env)))
      ∈ (uploadBundle appid0 opts env).trace := by
  obtain ⟨h1, h2, h3, h4, h5, h6, h7, h8, h9, h10, h11⟩ := hg
  unfold uploadBundle
  by_cases hu2 : env.upsertErr2 = true
  · simp [h1, h2, h3, h4, h5, h6, h7, h8, h9, h10, h11, hext, henc, hpk,
      registerPhase, encryptSource, hu1, hurl, hax, hu2]
  · simp only [h1, h2, h3, h4, h5, h6, h7, h8, h9, h10, h11, hext, henc, hpk,
      registerPhase, encryptSource, hu1, hurl, hax, hu2,
      Bool.or_self, Bool.or_false, Bool.false_or, if_true, if_false, Bool.false_eq_true,
      ite_true, ite_false]
    refine ⟨⟨_, bindPhase_store env _ _, rfl⟩, ?_⟩
    apply bindPhase_mem_of
    simp

/-- Witness for the amended C1 at the concrete encrypted run. -/
theorem c1_checksum_over_plaintext_witness :
    (GatesPass "com.demo.app" encryptOpts encryptEnv ∧
     encryptOpts.external? = none ∧
     (keyTruthy encryptOpts.key || encryptEnv.fsExists baseKeyPub) = true ∧
     encryptEnv.fsExists (publicKeyPath encryptOpts.key) = true ∧
     encryptEnv.upsertErr1 = false ∧ encryptEnv.uploadUrlOk = true ∧
     encryptEnv.axiosOk = true) ∧
    ((∃ vd, (uploadBundle "com.demo.app" encryptOpts encryptEnv).store = some vd ∧
        vd.checksum = crc32 (Bytes.zipOf (resolvedPath encryptOpts encryptEnv))) ∧
     Ev.uploadPut
         (Bytes.encrypted (Bytes.zipOf (resolvedPath encryptOpts encryptEnv))
           (encryptEnv.fileContents (publicKeyPath encryptOpts.key)))
         (crc32 (Bytes.zipOf (resolvedPath encryptOpts encryptEnv)))
       ∈ (uploadBundle "com.demo.app" encryptOpts encryptEnv).trace) :=
  ⟨by decide,
   c1_checksum_over_plaintext "com.demo.app" encryptOpts encryptEnv
     (by decide) (by decide) (by decide) (by decide) (by decide) (by decide) (by decide)⟩

/-! ### Claim theorems: native gate position -/

/-- Counterexample to C2: in a concrete run where the version already
exists, the run aborts at the version-existence gate after calling
`exist_app_versions`, with a trace containing no native-check event at
all — so the native-code gate does not run before the existence gate. -/
theorem c2_gate_order_counterexample :
    (uploadBundle "com.demo.app" happyOpts conflictEnv).trace =
      [Ev.checkLatest, Ev.rpcCall "verifyUser", Ev.rpcCall "checkPlanValid",
       Ev.rpcCall "appPermission", Ev.rpcCall "exist_app_versions"] ∧
    (uploadBundle "com.demo.app" happyOpts conflictEnv).outcome
      = Outcome.err "already exists" ∧
    Ev.nativeCheck true ∉ (uploadBundle "com.demo.app" happyOpts conflictEnv).trace ∧
    Ev.nativeCheck false ∉ (uploadBundle "com.demo.app" happyOpts conflictEnv).trace := by
  decide

/-- C2 (amended): the native-code check runs after the version-existence
gate but before the artifact builder: when it reports unsafe, the run
never builds an artifact and does not complete; and when the unsafe
check ran at all, the trace is exactly the gate sequence ending at the
native check — with both `exist_app_versions` gates before it and no
build event after it. -/
theorem c2_native_gate_order (appid0 : String) (opts : Options) (env : Env)
    (hnotsafe : (checkNativeCode (resolvedBundle opts env) env.nativeLocal
        env.channelFetch).nativeFilesNotChanged = false) :
    Ev.buildArtifact ∉ (uploadBundle appid0 opts env).trace ∧
    (uploadBundle appid0 opts env).outcome ≠ Outcome.ok ∧
    (Ev.nativeCheck false ∈ (uploadBundle appid0 opts env).trace →
      (uploadBundle appid0 opts env).trace =
        [Ev.checkLatest, Ev.rpcCall "verifyUser", Ev.rpcCall "checkPlanValid",
         Ev.rpcCall "appPermission", Ev.rpcCall "exist_app_versions", Ev.rpcCall "is_trial",
         Ev.rpcCall "exist_app", Ev.rpcCall "exist_app_versions", Ev.rpcCall "channels.select",
         Ev.nativeCheck false]) := by
  by_cases h1 : regexSemver (resolvedBundle opts env) = true
  case neg => unfold uploadBundle; simp [h1]
  by_cases h2 : (resolvedApikey opts env).isSome = true
  case neg => unfold uploadBundle; simp [h1, h2]
  by_cases h3 : (resolvedAppid appid0 env != "" && resolvedBundle opts env != ""
      && resolvedPath opts env != "") = true
  case neg => unfold uploadBundle; simp [h1, h2, h3]
  by_cases h4 : env.fsExists (resolvedPath opts env) = true
  case neg => unfold uploadBundle; simp [h1, h2, h3, h4]
  by_cases h5 : env.verifyOk = true
  case neg => unfold uploadBundle; simp [h1, h2, h3, h4, h5]
  by_cases h6 : env.planOk = true
  case neg => unfold uploadBundle; simp [h1, h2, h3, h4, h5, h6]
  by_cases h7 : env.appPermOk = true
  case neg => unfold uploadBundle; simp [h1, h2, h3, h4, h5, h6, h7]
  by_cases h8 : (env.versionExists || env.versionExistsErr) = true
  case pos => unfold uploadBundle; simp [h1, h2, h3, h4, h5, h6, h7, h8]
  by_cases h9 : (env.existApp && !env.existAppErr) = true
  case neg => unfold uploadBundle; simp [h1, h2, h3, h4, h5, h6, h7, h8, h9]
  unfold uploadBundle
  simp [h1, h2, h3, h4, h5, h6, h7, h8, h9, hnotsafe]

/-- Environment whose channel is bound to a same-major version with
recorded hashes disjoint from the local native hash. -/
def unsafeNativeEnv : Env :=
  { happyEnv with
      channelFetch := ChannelFetch.ok "1.0.0" (some ["X"])
      nativeLocal := [⟨"ios/App.swift", "H"⟩] }

/-- Witness for the amended C2 at a concrete unsafe-native run. -/
theorem c2_native_gate_order_witness :
    (checkNativeCode (resolvedBundle happyOpts unsafeNativeEnv) unsafeNativeEnv.nativeLocal
        unsafeNativeEnv.channelFetch).nativeFilesNotChanged = false ∧
    (Ev.buildArtifact ∉ (uploadBundle "com.demo.app" happyOpts unsafeNativeEnv).trace ∧
     (uploadBundle "com.demo.app" happyOpts unsafeNativeEnv).outcome ≠ Outcome.ok ∧
     (Ev.nativeCheck false ∈ (uploadBundle "com.demo.app" happyOpts unsafeNativeEnv).trace →
       (uploadBundle "com.demo.app" happyOpts unsafeNativeEnv).trace =
         [Ev.checkLatest, Ev.rpcCall "verifyUser", Ev.rpcCall "checkPlanValid",
          Ev.rpcCall "appPermission", Ev.rpcCall "exist_app_versions", Ev.rpcCall "is_trial",
          Ev.rpcCall "exist_app", Ev.rpcCall "exist_app_versions", Ev.rpcCall "channels.select",
          Ev.nativeCheck false])) :=
  ⟨by decide, c2_native_gate_order "com.demo.app" happyOpts unsafeNativeEnv (by decide)⟩

/-! ### Claim theorems: missing public key handling -/

/-- Options requesting encryption via the boolean flag (conventional key
path). -/
def keyFlagOpts : Options :=
  ⟨some "k", some "1.0.0", some "dist", some "production", false, none, KeyArg.kTrue⟩

/-- Interactive environment where the conventional public-key file does
not exist and the user consents to the default-key prompt. -/
def consentEnv : Env := { happyEnv with confirmDefaultKey := true }

/-- C3 evaluated at the failing input: encryption is requested, the
public-key file is missing, the execution is interactive (not CI), and
the user consents to using the built-in default key — yet the run aborts
(the fallback assignment of `defaulPublicKey` is dead: the code
unconditionally calls `readFileSync` on the missing path, which throws),
nothing is encrypted and no version row is written, contradicting the
claimed proceed-with-default-key behavior. -/
theorem c3_default_key_fallback_crash :
    consentEnv.isCI = false ∧
    consentEnv.confirmDefaultKey = true ∧
    consentEnv.fsExists (publicKeyPath keyFlagOpts.key) = false ∧
    (uploadBundle "com.demo.app" keyFlagOpts consentEnv).outcome = Outcome.err "ENOENT" ∧
    Ev.promptConfirm ∈ (uploadBundle "com.demo.app" keyFlagOpts consentEnv).trace ∧
    Ev.encryptEv ∉ (uploadBundle "com.demo.app" keyFlagOpts consentEnv).trace ∧
    (uploadBundle "com.demo.app" keyFlagOpts consentEnv).store = none := by
  decide

end Capgo
